import Mathlib

/-!
Verification of the Mininet leaf-spine topology package.

Shallow embedding of `ripl/leafspinetopo.py` (node-identifier encoding and
the structured-topology layer queries) and of `leaf-spine.py` (the plain
`MyTopo` leaf-spine build).  Python strings are modelled as `List Char`,
Python (2) integers as `Nat` (all values in scope are non-negative) with
`/` as floor division, exactly as Python 2 evaluates `k / 2`.  Python code
paths that raise (`KeyError` from a missing dict key, `ValueError` from
`int()` or tuple unpacking) are modelled with `Option`, `none` standing
for the raised exception.
-/

/-! ### Decimal formatting and parsing

`"%i" % n` produces the decimal digits of `n`; `int(s)` parses them back.
`natDigitsAux` is fuel-based so that it reduces in the kernel; `n + 1`
units of fuel always suffice since `n < 10 ^ (n + 1)`.
`parseNat` models `int()` restricted to unsigned decimal tokens, which is
the only shape of token the repository ever produces or parses. -/

def digitChar (d : Nat) : Char := Char.ofNat (48 + d)

def natDigitsAux : Nat → Nat → List Char
  | 0, _ => []
  | fuel + 1, n =>
    if n < 10 then [digitChar n]
    else natDigitsAux fuel (n / 10) ++ [digitChar (n % 10)]

def natDigits (n : Nat) : List Char := natDigitsAux (n + 1) n

def charVal (c : Char) : Option Nat :=
  if 48 ≤ c.toNat ∧ c.toNat ≤ 57 then some (c.toNat - 48) else none

def parseNatAux : Nat → List Char → Option Nat
  | acc, [] => some acc
  | acc, c :: cs =>
    match charVal c with
    | some d => parseNatAux (acc * 10 + d) cs
    | none => none

def parseNat : List Char → Option Nat
  | [] => none
  | c :: cs => parseNatAux 0 (c :: cs)

/-! ### Python `str.split(sep)` on a single-character separator -/

def pySplitAux (sep : Char) : List Char → List Char → List (List Char)
  | [], cur => [cur.reverse]
  | c :: cs, cur =>
    if c = sep then cur.reverse :: pySplitAux sep cs []
    else pySplitAux sep cs (c :: cur)

def pySplit (sep : Char) (s : List Char) : List (List Char) := pySplitAux sep s []

/-! ### `LeafSpineTopo.LeafSpineNodeID` (leafspinetopo.py lines 188-230)

The constructor packs `(sw, host)` into `dpid = (sw << 8) + host`, or
unpacks a `dpid` via the masks `0xff00 >> 8` / `0xff`, or parses a name
`"<sw>_<host>"`.  Python's `if dpid:` / `elif name:` are truthiness
tests: `dpid == 0` and `name == ""` both fall through to the next branch,
which `truthyNat` / `truthyStr` reproduce. -/

structure LeafSpineNodeID where
  sw : Nat
  host : Nat
  dpid : Nat
deriving DecidableEq

def truthyNat : Option Nat → Bool
  | none => false
  | some n => n != 0

def truthyStr : Option (List Char) → Bool
  | none => false
  | some s => !s.isEmpty

/-- The `else` branch of `__init__`: explicit fields, `dpid = (sw << 8) + host`. -/
def LeafSpineNodeID.ofFields (sw host : Nat) : LeafSpineNodeID :=
  { sw := sw, host := host, dpid := (sw <<< 8) + host }

/-- The `if dpid:` branch of `__init__`:
`sw = (dpid & 0xff00) >> 8`, `host = dpid & 0xff`. -/
def LeafSpineNodeID.ofDpid (d : Nat) : LeafSpineNodeID :=
  { sw := (d &&& 0xff00) >>> 8, host := d &&& 0xff, dpid := d }

/-- `sw, host = [int(s) for s in name.split('_')]`.  A `ValueError` from
`int()` and a `ValueError` from unpacking a list whose length is not 2
both abort the constructor; both collapse to `none` here. -/
def parseName (name : List Char) : Option (Nat × Nat) :=
  match (pySplit '_' name).map parseNat with
  | [some a, some b] => some (a, b)
  | _ => none

/-- `LeafSpineNodeID.__init__(sw, host, dpid, name)` with the branch
dispatch of the source (dpid first, then name, then explicit fields). -/
def LeafSpineNodeID.make (sw host : Nat) (dpid : Option Nat)
    (name : Option (List Char)) : Option LeafSpineNodeID :=
  if truthyNat dpid then
    some (LeafSpineNodeID.ofDpid (dpid.getD 0))
  else if truthyStr name then
    match parseName (name.getD []) with
    | some (s, h) => some (LeafSpineNodeID.ofFields s h)
    | none => none
  else
    some (LeafSpineNodeID.ofFields sw host)

/-- `name_str`: `"%i_%i" % (self.sw, self.host)`. -/
def LeafSpineNodeID.name_str (id : LeafSpineNodeID) : List Char :=
  natDigits id.sw ++ '_' :: natDigits id.host

/-- `ip_str` of the subclass: `"10.0.%i.%i" % (self.sw, self.host)`. -/
def LeafSpineNodeID.ip_str (id : LeafSpineNodeID) : List Char :=
  '1' :: '0' :: '.' :: '0' :: '.' :: (natDigits id.sw ++ '.' :: natDigits id.host)

/-- `NodeID.ip_str` of the base class (leafspinetopo.py lines 45-52),
a function of the stored `dpid`:
`hi = (dpid & 0xff00) >> 8; lo = dpid & 0xff; "10.0.%i.%i" % (hi, lo)`. -/
def NodeID.ip_str (dpid : Nat) : List Char :=
  '1' :: '0' :: '.' :: '0' :: '.' ::
    (natDigits ((dpid &&& 0xff00) >>> 8) ++ '.' :: natDigits (dpid &&& 0xff))

/-! ### `StructuredTopo` (leafspinetopo.py lines 86-174)

Mininet's `Topo` keeps `node_info[name]` (the opts dict, holding the
`'layer'` key set by `def_nopts`) and an undirected multigraph `g` of the
added links.  We keep the node list as `(name, layer)` pairs in insertion
order (the opts dicts also carry ip/mac/dpid strings for hosts, which no
claim about the graph queries reads) and the link list as ordered pairs
exactly as `addLink` was called.  `self.node_info[name]` on a missing
name raises `KeyError`, modelled as `none`. -/

structure StructuredTopo where
  nodes : List (List Char × Nat)
  links : List (List Char × List Char)

/-- `PORT_BASE = 1` (leafspinetopo.py line 17). -/
def PORT_BASE : Nat := 1

/-- `isPortUp(port)`: `return port % 2 == PORT_BASE`.  The method ignores
`self`, so it is embedded as a plain function. -/
def isPortUp (port : Nat) : Bool := port % 2 == PORT_BASE

/-- `self.layer(name) = self.node_info[name]['layer']`; `KeyError` on a
missing vertex becomes `none`. -/
def StructuredTopo.layer? (t : StructuredTopo) (name : List Char) : Option Nat :=
  (t.nodes.find? (fun p => p.1 = name)).map (fun p => p.2)

/-- Neighbors of `name` in the undirected link multigraph `self.g`
(iterating `self.g[name]`): every link endpoint paired with `name`. -/
def StructuredTopo.neighbors (t : StructuredTopo) (name : List Char) : List (List Char) :=
  t.links.filterMap (fun p =>
    if p.1 = name then some p.2 else if p.2 = name then some p.1 else none)

/-- `layer_nodes(layer)`: all vertices whose layer tag equals `layer`. -/
def StructuredTopo.layer_nodes (t : StructuredTopo) (layer : Nat) : List (List Char) :=
  (t.nodes.map Prod.fst).filter (fun n => decide (t.layer? n = some layer))

/-- `up_nodes(name)`: neighbors whose layer is `self.layer(name) - 1`.
Python subtraction can go to `-1` (for the top layer), so the comparison
is carried out in `Int`.  The initial `self.layer(name)` raises
(`KeyError`) for an unknown vertex, hence the `Option`. -/
def StructuredTopo.up_nodes (t : StructuredTopo) (name : List Char) :
    Option (List (List Char)) :=
  match t.layer? name with
  | none => none
  | some ly =>
    some ((t.neighbors name).filter (fun n =>
      decide ((t.layer? n).map (fun l => (l : Int)) = some ((ly : Int) - 1))))

/-- `down_nodes(name)`: neighbors whose layer is `self.layer(name) + 1`. -/
def StructuredTopo.down_nodes (t : StructuredTopo) (name : List Char) :
    Option (List (List Char)) :=
  match t.layer? name with
  | none => none
  | some ly =>
    some ((t.neighbors name).filter (fun n =>
      decide ((t.layer? n).map (fun l => (l : Int)) = some ((ly : Int) + 1))))

/-! ### `LeafSpineTopo.__init__` (leafspinetopo.py lines 250-293)

Layer constants: `LAYER_SPINE = 0`, `LAYER_LEAF = 1`, `LAYER_HOST = 2`.
The build adds `k` spines `0_s`, then for each of the `2k` leaves `1_l`
adds the leaf, its `k / 2` hosts `2_(l*(k/2)+h)` each linked to the leaf,
and links the leaf to every spine.  `k / 2` is Python 2 floor division.
There is no parameter validation anywhere in the constructor: no
evenness check on `k` and no exception path. -/

def LAYER_SPINE : Nat := 0
def LAYER_LEAF : Nat := 1
def LAYER_HOST : Nat := 2

/-- `self.id_gen(sw, host).name_str()` as used by the build. -/
def genName (sw host : Nat) : List Char :=
  (LeafSpineNodeID.ofFields sw host).name_str

def leafSpineNodes (k : Nat) : List (List Char × Nat) :=
  ((List.range k).map (fun s => (genName 0 s, LAYER_SPINE)))
    ++ (List.range (k * 2)).flatMap (fun l =>
      (genName 1 l, LAYER_LEAF) ::
        (List.range (k / 2)).map (fun h =>
          (genName 2 (l * (k / 2) + h), LAYER_HOST)))

def leafSpineLinks (k : Nat) : List (List Char × List Char) :=
  (List.range (k * 2)).flatMap (fun l =>
    ((List.range (k / 2)).map (fun h =>
        (genName 2 (l * (k / 2) + h), genName 1 l)))
      ++ ((List.range k).map (fun s => (genName 1 l, genName 0 s))))

/-- The graph built by `LeafSpineTopo(k)`. -/
def leafSpineBuild (k : Nat) : StructuredTopo :=
  { nodes := leafSpineNodes k, links := leafSpineLinks k }

/-! ### `MyTopo` (leaf-spine.py)

Plain `Topo` with `numSpine = 1`, `numLeaf = 2`, `numHostPerLeaf = 2`;
switches `s<i>` and `l<i>`, hosts `h<i>`; every spine linked to every
leaf, and leaf `i` linked to hosts `i*numHostPerLeaf .. i*numHostPerLeaf+1`. -/

def numSpine : Nat := 1
def numLeaf : Nat := 2
def numHostPerLeaf : Nat := 2

def myTopoSpines : List (List Char) :=
  (List.range numSpine).map (fun i => 's' :: natDigits i)

def myTopoLeafs : List (List Char) :=
  (List.range numLeaf).map (fun i => 'l' :: natDigits i)

def myTopoHosts : List (List Char) :=
  (List.range (numHostPerLeaf * numLeaf)).map (fun i => 'h' :: natDigits i)

def myTopoLinksSpineLeaf : List (List Char × List Char) :=
  (List.range numSpine).flatMap (fun i =>
    (List.range numLeaf).map (fun j =>
      (myTopoSpines.getD i [], myTopoLeafs.getD j [])))

def myTopoLinksLeafHost : List (List Char × List Char) :=
  (List.range numLeaf).flatMap (fun i =>
    (List.range numHostPerLeaf).map (fun j =>
      (myTopoLeafs.getD i [], myTopoHosts.getD (i * numHostPerLeaf + j) [])))

def myTopoLinks : List (List Char × List Char) :=
  myTopoLinksSpineLeaf ++ myTopoLinksLeafHost

/-- Links incident to `a` whose other endpoint lies in `grp`. -/
def linksBetween (links : List (List Char × List Char)) (a : List Char)
    (grp : List (List Char)) : List (List Char × List Char) :=
  links.filter (fun e =>
    (e.1 == a && grp.contains e.2) || (e.2 == a && grp.contains e.1))

theorem and_shiftLeft_shiftRight (x m k : Nat) :
    (x &&& (m <<< k)) >>> k = (x >>> k) &&& m := by
  apply Nat.eq_of_testBit_eq
  intro i
  simp [Nat.testBit_shiftRight, Nat.testBit_and, Nat.testBit_shiftLeft,
    Nat.le_add_right, Nat.add_sub_cancel_left]

theorem decode_lo (sw host : Nat) (h2 : host ≤ 255) :
    ((sw <<< 8) + host) &&& 0xff = host := by
  have h255 : (0xff : Nat) = 2 ^ 8 - 1 := rfl
  rw [h255, Nat.and_pow_two_sub_one_eq_mod, Nat.shiftLeft_eq]
  have : (2 : Nat) ^ 8 = 256 := rfl
  rw [this]
  omega

theorem decode_hi (sw host : Nat) (h1 : sw ≤ 255) (h2 : host ≤ 255) :
    (((sw <<< 8) + host) &&& 0xff00) >>> 8 = sw := by
  have hff00 : (0xff00 : Nat) = 255 <<< 8 := rfl
  rw [hff00, and_shiftLeft_shiftRight]
  have h255 : (255 : Nat) = 2 ^ 8 - 1 := rfl
  rw [h255, Nat.and_pow_two_sub_one_eq_mod, Nat.shiftRight_eq_div_pow, Nat.shiftLeft_eq]
  have : (2 : Nat) ^ 8 = 256 := rfl
  rw [this]
  omega

theorem charVal_digitChar (d : Nat) (h : d < 10) : charVal (digitChar d) = some d := by
  interval_cases d <;> decide

theorem mem_natDigitsAux (fuel : Nat) : ∀ n c, c ∈ natDigitsAux fuel n →
    ∃ d, d < 10 ∧ c = digitChar d := by
  induction fuel with
  | zero => intro n c hc; simp [natDigitsAux] at hc
  | succ fuel ih =>
    intro n c hc
    rw [natDigitsAux] at hc
    by_cases h : n < 10
    · simp [h] at hc
      exact ⟨n, h, hc⟩
    · simp [h] at hc
      rcases hc with hc | hc
      · exact ih _ _ hc
      · exact ⟨n % 10, Nat.mod_lt _ (by omega), hc⟩

theorem underscore_not_mem_natDigits (n : Nat) : '_' ∉ natDigits n := by
  intro h
  obtain ⟨d, hd, he⟩ := mem_natDigitsAux (n + 1) n '_' h
  interval_cases d <;> simp_all [digitChar]

theorem natDigits_ne_nil (n : Nat) : natDigits n ≠ [] := by
  rw [natDigits, natDigitsAux]
  by_cases h : n < 10 <;> simp [h]

theorem parseNatAux_append (xs : List Char) : ∀ ys acc,
    parseNatAux acc (xs ++ ys) = (parseNatAux acc xs).bind (fun w => parseNatAux w ys) := by
  induction xs with
  | nil => intro ys acc; simp [parseNatAux]
  | cons c cs ih =>
    intro ys acc
    rw [List.cons_append, parseNatAux, parseNatAux]
    cases h : charVal c with
    | none => simp
    | some d => simp [ih]

theorem parseNatAux_natDigitsAux (fuel : Nat) : ∀ n acc, n < 10 ^ fuel →
    parseNatAux acc (natDigitsAux fuel n) =
      some (acc * 10 ^ (natDigitsAux fuel n).length + n) := by
  induction fuel with
  | zero =>
    intro n acc hn
    interval_cases n
    simp [natDigitsAux, parseNatAux]
  | succ fuel ih =>
    intro n acc hn
    rw [natDigitsAux]
    by_cases h : n < 10
    · simp only [if_pos h, parseNatAux, charVal_digitChar n h, List.length_singleton]
      simp [parseNatAux]
    · simp only [if_neg h]
      rw [parseNatAux_append]
      have hdiv : n / 10 < 10 ^ fuel := by
        rw [Nat.pow_succ] at hn
        omega
      rw [ih (n / 10) acc hdiv]
      simp only [Option.some_bind, parseNatAux, charVal_digitChar (n % 10) (Nat.mod_lt _ (by omega))]
      simp only [parseNatAux, List.length_append, List.length_singleton]
      congr 1
      rw [Nat.pow_succ, ← Nat.mul_assoc]
      generalize acc * 10 ^ (natDigitsAux fuel (n / 10)).length = X
      omega

theorem parseNat_natDigits (n : Nat) : parseNat (natDigits n) = some n := by
  have hfuel : n < 10 ^ (n + 1) := by
    calc n < 10 ^ n := Nat.lt_pow_self (by norm_num) n
    _ ≤ 10 ^ (n + 1) := Nat.pow_le_pow_right (by norm_num) (Nat.le_succ n)
  have hmain := parseNatAux_natDigitsAux (n + 1) n 0 hfuel
  have hne := natDigits_ne_nil n
  rw [natDigits] at hne ⊢
  cases hd : natDigitsAux (n + 1) n with
  | nil => exact absurd hd hne
  | cons c cs =>
    rw [parseNat]
    rw [hd] at hmain
    simpa using hmain

theorem pySplitAux_no_sep (sep : Char) (l : List Char) : ∀ cur, sep ∉ l →
    pySplitAux sep l cur = [cur.reverse ++ l] := by
  induction l with
  | nil => intro cur _; simp [pySplitAux]
  | cons c cs ih =>
    intro cur hmem
    have hc : c ≠ sep := fun h => hmem (h ▸ List.mem_cons_self c cs)
    rw [pySplitAux, if_neg hc, ih _ (fun h => hmem (List.mem_cons_of_mem c h))]
    simp

theorem pySplitAux_sep_append (sep : Char) (a : List Char) : ∀ cur (b : List Char),
    sep ∉ a →
    pySplitAux sep (a ++ sep :: b) cur = (cur.reverse ++ a) :: pySplitAux sep b [] := by
  induction a with
  | nil => intro cur b _; simp [pySplitAux]
  | cons c cs ih =>
    intro cur b hmem
    have hc : c ≠ sep := fun h => hmem (h ▸ List.mem_cons_self c cs)
    rw [List.cons_append, pySplitAux, if_neg hc,
      ih _ b (fun h => hmem (List.mem_cons_of_mem c h))]
    simp

theorem pySplit_name (s h : Nat) :
    pySplit '_' (natDigits s ++ '_' :: natDigits h) = [natDigits s, natDigits h] := by
  rw [pySplit, pySplitAux_sep_append '_' (natDigits s) [] (natDigits h)
    (underscore_not_mem_natDigits s),
    pySplitAux_no_sep '_' (natDigits h) [] (underscore_not_mem_natDigits h)]
  simp

theorem parseName_name_str (sw host : Nat) :
    parseName (LeafSpineNodeID.ofFields sw host).name_str = some (sw, host) := by
  rw [parseName, LeafSpineNodeID.name_str]
  show (match (pySplit '_' (natDigits sw ++ '_' :: natDigits host)).map parseNat with
    | [some a, some b] => some (a, b)
    | _ => none) = some (sw, host)
  rw [pySplit_name]
  simp [parseNat_natDigits]

/-- Claim C8: for every pair of non-negative coordinate fields `(sw, host)`,
parsing the name string produced for those fields reproduces exactly the
fields: `name_str` yields the underscore-joined decimal string
`"<sw>_<host>"`, and running the constructor on that string recovers
`sw` and `host` (and the packed `dpid`). -/
theorem name_str_roundtrip (sw host : Nat) :
    LeafSpineNodeID.make 0 0 none (some (LeafSpineNodeID.ofFields sw host).name_str) =
      some (LeafSpineNodeID.ofFields sw host) := by
  have hne := natDigits_ne_nil sw
  rw [LeafSpineNodeID.make]
  have htr : truthyStr (some (LeafSpineNodeID.ofFields sw host).name_str) = true := by
    rw [truthyStr, LeafSpineNodeID.name_str]
    cases hd : natDigits (LeafSpineNodeID.ofFields sw host).sw with
    | nil => exact absurd hd hne
    | cons c cs => simp
  rw [if_neg (by simp [truthyNat]), if_pos htr]
  simp only [Option.getD_some, parseName_name_str]

/-- Claim C1: for `0 ≤ sw ≤ 255` and `0 ≤ host ≤ 255`, constructing an
identifier from the fields produces the handle `(sw << 8) + host`, and
constructing an identifier from that handle (the `dpid` branch of
`__init__`) reproduces exactly the fields `sw` and `host`. -/
theorem encode_decode_roundtrip (sw host : Nat) (h1 : sw ≤ 255) (h2 : host ≤ 255) :
    LeafSpineNodeID.make sw host none none = some (LeafSpineNodeID.ofFields sw host) ∧
    (LeafSpineNodeID.ofFields sw host).dpid = (sw <<< 8) + host ∧
    LeafSpineNodeID.make 0 0 (some ((sw <<< 8) + host)) none =
      some (LeafSpineNodeID.ofFields sw host) := by
  refine ⟨rfl, rfl, ?_⟩
  rw [LeafSpineNodeID.make]
  by_cases hz : (sw <<< 8) + host = 0
  · have hsw : sw = 0 := by rw [Nat.shiftLeft_eq] at hz; omega
    have hh : host = 0 := by rw [Nat.shiftLeft_eq] at hz; omega
    subst hsw; subst hh
    rfl
  · rw [if_pos (by simp [truthyNat, hz])]
    simp only [Option.getD_some]
    rw [LeafSpineNodeID.ofDpid, LeafSpineNodeID.ofFields,
      decode_hi sw host h1 h2, decode_lo sw host h2]

theorem encode_decode_roundtrip_witness :
    LeafSpineNodeID.make 3 7 none none = some (LeafSpineNodeID.ofFields 3 7) ∧
    (LeafSpineNodeID.ofFields 3 7).dpid = (3 <<< 8) + 7 ∧
    LeafSpineNodeID.make 0 0 (some ((3 <<< 8) + 7)) none =
      some (LeafSpineNodeID.ofFields 3 7) :=
  encode_decode_roundtrip 3 7 (by decide) (by decide)

/-- Claim C10: for `0 ≤ sw ≤ 255` and `0 ≤ host ≤ 255`, the base-class
`NodeID.ip_str` computed from the packed handle `(sw << 8) + host`
returns exactly the same string as the subclass
`LeafSpineNodeID.ip_str` computed directly from the fields, namely
`"10.0.<sw>.<host>"`. -/
theorem ip_str_refinement (sw host : Nat) (h1 : sw ≤ 255) (h2 : host ≤ 255) :
    NodeID.ip_str ((sw <<< 8) + host) = (LeafSpineNodeID.ofFields sw host).ip_str := by
  rw [NodeID.ip_str, LeafSpineNodeID.ip_str, decode_hi sw host h1 h2, decode_lo sw host h2]
  rfl

theorem ip_str_refinement_witness :
    NodeID.ip_str ((3 <<< 8) + 7) = (LeafSpineNodeID.ofFields 3 7).ip_str :=
  ip_str_refinement 3 7 (by decide) (by decide)

/-- Claim C4: `isPortUp` applied to `PORT_BASE = 1` returns `true`,
applied to `PORT_BASE + 1` returns `false`, and for every port
`p ≥ PORT_BASE` the value of `isPortUp (p + 1)` is the negation of
`isPortUp p`. -/
theorem isPortUp_parity :
    isPortUp PORT_BASE = true ∧ isPortUp (PORT_BASE + 1) = false ∧
    ∀ p, PORT_BASE ≤ p → isPortUp (p + 1) = !(isPortUp p) := by
  refine ⟨rfl, rfl, ?_⟩
  intro p _
  rw [isPortUp, isPortUp, PORT_BASE]
  rcases Nat.mod_two_eq_zero_or_one p with h | h <;>
    simp [Nat.add_mod, h]

theorem isPortUp_parity_witness : isPortUp (3 + 1) = !(isPortUp 3) :=
  isPortUp_parity.2.2 3 (by decide)

/-- Claim C5, counterexample: encoding the field value 256 into the 8-bit
lane does not fail with an `OverflowError` — the constructor has no
width check at all, and the build succeeds, returning the identifier
with `host = 256` and handle `(0 << 8) + 256 = 256`. -/
theorem encode_256_no_overflow :
    LeafSpineNodeID.make 0 256 none none =
      some { sw := 0, host := 256, dpid := 256 } := rfl

/-- Claim C5, amended: encoding a coordinate field value of 256 into the
8-bit lane does not raise; the constructor silently produces the handle
256, which overflows into the adjacent lane, so decoding that handle
yields the different fields `(sw, host) = (1, 0)` and the round-trip of
claim C1 is broken outside the 8-bit range. -/
theorem encode_256_silent_wrap :
    LeafSpineNodeID.make 0 256 none none =
      some { sw := 0, host := 256, dpid := 256 } ∧
    LeafSpineNodeID.make 0 0 (some 256) none =
      some { sw := 1, host := 0, dpid := 256 } := by
  exact ⟨rfl, by decide⟩

set_option maxRecDepth 20000

/-- Claim C6, counterexample: building the fat-tree-shaped topology with
`k = 3` does not fail — `LeafSpineTopo.__init__` performs no evenness
check and has no `ConfigurationError` path; the build runs to completion
and hands off a full graph of 15 vertices and 24 links. -/
theorem leafSpine_k3_builds :
    (leafSpineBuild 3).nodes.length = 15 ∧ (leafSpineBuild 3).links.length = 24 := by
  decide

/-- Claim C6, amended: building with the odd branching factor `k = 3`
succeeds with no error; using Python-2 floor division `k / 2 = 1` it
produces 3 spine vertices, 6 leaf vertices and 6 host vertices, each
leaf linked upward to all 3 spines and downward to exactly 1 host. -/
theorem leafSpine_k3_shape :
    ((leafSpineBuild 3).layer_nodes LAYER_SPINE).length = 3 ∧
    ((leafSpineBuild 3).layer_nodes LAYER_LEAF).length = 6 ∧
    ((leafSpineBuild 3).layer_nodes LAYER_HOST).length = 6 ∧
    (∀ lf ∈ (leafSpineBuild 3).layer_nodes LAYER_LEAF,
      (leafSpineBuild 3).up_nodes lf =
        some ((leafSpineBuild 3).layer_nodes LAYER_SPINE) ∧
      (((leafSpineBuild 3).down_nodes lf).getD []).length = 1) := by
  decide

/-- Claim C7: for every vertex name not present in the built graph, the
layer lookup, `up_nodes`, and `down_nodes` queries all fail (the
`KeyError` raised by `self.node_info[name]`, modelled as `none`). -/
theorem unknown_vertex_queries_fail (t : StructuredTopo) (name : List Char)
    (h : ∀ p ∈ t.nodes, p.1 ≠ name) :
    t.layer? name = none ∧ t.up_nodes name = none ∧ t.down_nodes name = none := by
  have hf : t.nodes.find? (fun p => p.1 = name) = none :=
    List.find?_eq_none.mpr (fun p hp => by simpa using h p hp)
  have hl : t.layer? name = none := by
    rw [StructuredTopo.layer?, hf]
    rfl
  refine ⟨hl, ?_, ?_⟩ <;>
    simp only [StructuredTopo.up_nodes, StructuredTopo.down_nodes, hl]

/-- Claim C2: building `LeafSpineTopo` with `k = 4` produces exactly 4
spine vertices, 8 leaf vertices and 16 host vertices; every leaf vertex
has exactly 4 up-edges, one to each spine, and exactly 2 down-edges to
host vertices; every host vertex has exactly 1 up-edge. -/
theorem leafSpine_k4_scenario :
    ((leafSpineBuild 4).layer_nodes LAYER_SPINE).length = 4 ∧
    ((leafSpineBuild 4).layer_nodes LAYER_LEAF).length = 8 ∧
    ((leafSpineBuild 4).layer_nodes LAYER_HOST).length = 16 ∧
    (∀ lf ∈ (leafSpineBuild 4).layer_nodes LAYER_LEAF,
      (leafSpineBuild 4).up_nodes lf =
        some ((leafSpineBuild 4).layer_nodes LAYER_SPINE) ∧
      (((leafSpineBuild 4).down_nodes lf).getD []).length = 2 ∧
      (((leafSpineBuild 4).down_nodes lf).getD []).all
        (fun n => ((leafSpineBuild 4).layer_nodes LAYER_HOST).contains n)) ∧
    (∀ h ∈ (leafSpineBuild 4).layer_nodes LAYER_HOST,
      ((leafSpineBuild 4).up_nodes h).isSome ∧
      (((leafSpineBuild 4).up_nodes h).getD []).length = 1) := by
  decide

/-- Claim C9: building `MyTopo` (spine count 1, leaf count 2, 2 hosts per
leaf) produces exactly 1 spine vertex, 2 leaf vertices and 4 host
vertices; each leaf has exactly 1 up-edge (to the spine) and exactly 2
down-edges, leaf `l0` to hosts `h0, h1` and leaf `l1` to hosts
`h2, h3`; the spine has exactly 2 down-edges. -/
theorem myTopo_scenario :
    myTopoSpines.length = 1 ∧ myTopoLeafs.length = 2 ∧ myTopoHosts.length = 4 ∧
    (∀ lf ∈ myTopoLeafs,
      (linksBetween myTopoLinks lf myTopoSpines).length = 1 ∧
      (linksBetween myTopoLinks lf myTopoHosts).length = 2) ∧
    (linksBetween myTopoLinks ('l' :: natDigits 0) myTopoHosts).map Prod.snd =
      [('h' :: natDigits 0), ('h' :: natDigits 1)] ∧
    (linksBetween myTopoLinks ('l' :: natDigits 1) myTopoHosts).map Prod.snd =
      [('h' :: natDigits 2), ('h' :: natDigits 3)] ∧
    (∀ s ∈ myTopoSpines, (linksBetween myTopoLinks s myTopoLeafs).length = 2) := by
  decide

theorem mem_neighbors_iff (t : StructuredTopo) (a b : List Char) :
    b ∈ t.neighbors a ↔ ∃ p ∈ t.links,
      (p.1 = a ∧ p.2 = b) ∨ (p.1 ≠ a ∧ p.2 = a ∧ p.1 = b) := by
  rw [StructuredTopo.neighbors, List.mem_filterMap]
  constructor
  · rintro ⟨⟨x, y⟩, hp, hf⟩
    refine ⟨(x, y), hp, ?_⟩
    by_cases hxa : x = a <;> simp_all
  · rintro ⟨⟨x, y⟩, hp, hor⟩
    refine ⟨(x, y), hp, ?_⟩
    rcases hor with ⟨h1, h2⟩ | ⟨h1, h2, h3⟩ <;> simp_all

theorem mem_neighbors_symm (t : StructuredTopo) (a b : List Char) :
    b ∈ t.neighbors a ↔ a ∈ t.neighbors b := by
  rw [mem_neighbors_iff, mem_neighbors_iff]
  constructor <;>
  · rintro ⟨⟨x, y⟩, hp, hor⟩
    refine ⟨(x, y), hp, ?_⟩
    rcases hor with ⟨h1, h2⟩ | ⟨h1, h2, h3⟩ <;>
      by_cases hab : a = b <;> simp_all <;>
      exact fun hba => hab hba.symm

theorem optmap_int_eq (o : Option Nat) (m : Nat) :
    (o.map (fun l => (l : Int)) = some (m : Int)) ↔ o = some m := by
  cases o <;> simp

theorem mem_down_nodes (t : StructuredTopo) (a b : List Char) (la : Nat)
    (ha : t.layer? a = some la) :
    b ∈ (t.down_nodes a).getD [] ↔
      (b ∈ t.neighbors a ∧ t.layer? b = some (la + 1)) := by
  simp only [StructuredTopo.down_nodes, ha, Option.getD_some, List.mem_filter,
    decide_eq_true_eq]
  have hc : ((la : Int) + 1) = ((la + 1 : Nat) : Int) := by push_cast; ring
  rw [hc, optmap_int_eq]

theorem mem_up_nodes (t : StructuredTopo) (b a : List Char) (la : Nat)
    (hb : t.layer? b = some (la + 1)) :
    a ∈ (t.up_nodes b).getD [] ↔
      (a ∈ t.neighbors b ∧ t.layer? a = some la) := by
  simp only [StructuredTopo.up_nodes, hb, Option.getD_some, List.mem_filter,
    decide_eq_true_eq]
  have hc : (((la + 1 : Nat) : Int) - 1) = ((la : Nat) : Int) := by push_cast; ring
  rw [hc, optmap_int_eq]

/-- Claim C3: in every graph, for vertices `a` and `b` of adjacent layers
(`b` one layer below `a`), `b` is a member of `down_nodes a` if and only
if `a` is a member of `up_nodes b`. -/
theorem adjacency_symmetry (t : StructuredTopo) (a b : List Char) (la lb : Nat)
    (ha : t.layer? a = some la) (hb : t.layer? b = some lb) (hadj : lb = la + 1) :
    (b ∈ (t.down_nodes a).getD [] ↔ a ∈ (t.up_nodes b).getD []) := by
  subst hadj
  rw [mem_down_nodes t a b la ha, mem_up_nodes t b a la hb]
  constructor
  · rintro ⟨hm, _⟩
    exact ⟨(mem_neighbors_symm t a b).mp hm, ha⟩
  · rintro ⟨hm, _⟩
    exact ⟨(mem_neighbors_symm t b a).mp hm, hb⟩

theorem adjacency_symmetry_witness :
    (genName 1 0 ∈ ((leafSpineBuild 2).down_nodes (genName 0 0)).getD [] ↔
      genName 0 0 ∈ ((leafSpineBuild 2).up_nodes (genName 1 0)).getD []) :=
  adjacency_symmetry (leafSpineBuild 2) (genName 0 0) (genName 1 0) 0 1
    (by decide) (by decide) rfl

theorem unknown_vertex_queries_fail_witness :
    (leafSpineBuild 2).layer? ['x'] = none ∧
    (leafSpineBuild 2).up_nodes ['x'] = none ∧
    (leafSpineBuild 2).down_nodes ['x'] = none :=
  unknown_vertex_queries_fail (leafSpineBuild 2) ['x'] (by decide)
